import Mathlib

/-!
Verification development for the `typescript_physics_app` repository
(`websocket-server.ts`: a Deno WebSocket relay server plus two near-duplicate
browser physics clients, one plain-script and one typed).

The embedding is shallow: JavaScript numbers are modelled as exact rationals
(`ℚ`), JS `Map` objects as insertion-ordered association lists, the mutable
per-object integration step as a pure state-transforming function, and the
event-driven WebSocket handlers as pure functions from (state, event) to
(state, emitted sends).  JS truthiness tests that matter (`obj.radius`,
`data.id`, `data.object`, `data.gravity`) are modelled explicitly.
-/

namespace PhysicsApp

/-- A 2D vector with rational components, modelling `{x, y}` objects such as
`gravity` and `velocity` in the source. -/
structure Vec2 where
  x : ℚ
  y : ℚ
  deriving DecidableEq

/-- World bounds, modelling `worldBounds = { width, height }`. -/
structure Bounds where
  width : ℚ
  height : ℚ
  deriving DecidableEq

/-! ## RelayServer (`websocket-server.ts`, lines 1-118)

The server keeps a `Set<WebSocket>` of clients.  Each socket has a
`readyState`; `broadcastToAll` sends only to sockets whose `readyState` is
`WebSocket.OPEN`.  We model a socket as an identifier plus its ready state,
and the `onmessage` handler as a pure function returning the list of
performed sends `(socket id, outgoing message)`, the client set after
handling, and the list of sockets the handler closed.  The handler's
`try { ... } catch (error) { console.error(...) }` wrapper means a JSON
parse failure (`InFrame.malformed`) reaches the handler as an event that
produces no sends and no state change; the Lean handler is a total
function, so no failure escapes to the caller. -/

/-- Ready state of a WebSocket.  `opened` models `WebSocket.OPEN`. -/
inductive ReadyState where
  | connecting
  | opened
  | closing
  | closed
  deriving DecidableEq

/-- One connection registered with the relay server: the transport handle is
modelled as a numeric identifier plus the socket's current ready state. -/
structure Client where
  id : ℕ
  readyState : ReadyState
  deriving DecidableEq

/-- An inbound WebSocket frame as seen by the server's `onmessage` handler:
either `JSON.parse` throws (`malformed`), or it yields a value whose `type`
field is a string and whose `data` field is an arbitrary payload `α` (the
server never inspects `data`, so the payload type is a parameter). -/
inductive InFrame (α : Type) where
  | malformed
  | msg (ty : String) (data : α)

/-- An outgoing server message: either the re-stamped `physics_update`
broadcast or the `physics_init` reply to `client_ready`. -/
inductive OutMsg (α : Type) where
  | physicsUpdate (data : α) (timestamp : ℕ)
  | physicsInit (gravity : Vec2) (worldBounds : Bounds)
  deriving DecidableEq

/-- Result of one `onmessage` invocation: the sends performed (socket id
paired with the message sent), the client set afterwards, and the ids of
sockets closed by the handler. -/
structure HandlerResult (α : Type) where
  sends : List (ℕ × OutMsg α)
  clients : List Client
  closedIds : List ℕ

/-- Embedding of `broadcastToAll` (lines 71-78): send the message to every
client in the set whose `readyState` is `OPEN`. -/
def broadcastToAll (clients : List Client) (m : OutMsg α) : List (ℕ × OutMsg α) :=
  (clients.filter fun c => c.readyState = ReadyState.opened).map fun c => (c.id, m)

/-- Embedding of the server's `onmessage` handler (lines 20-53).  `now`
models `Date.now()` at handling time.  A `physics_update` is re-stamped and
broadcast to every open client (via `broadcastToAll`); `client_ready` gets a
unicast `physics_init` reply carrying gravity `{x: 0, y: 9.81}` and bounds
`{width: 800, height: 600}`; any other type, and malformed JSON, produce no
sends.  No branch mutates the client set or closes a socket. -/
def handleMessage (clients : List Client) (sender : Client) (frame : InFrame α)
    (now : ℕ) : HandlerResult α :=
  match frame with
  | InFrame.malformed => ⟨[], clients, []⟩
  | InFrame.msg ty d =>
    if ty = "physics_update" then
      ⟨broadcastToAll clients (OutMsg.physicsUpdate d now), clients, []⟩
    else if ty = "client_ready" then
      ⟨[(sender.id, OutMsg.physicsInit ⟨0, 981/100⟩ ⟨800, 600⟩)], clients, []⟩
    else
      ⟨[], clients, []⟩

/-! ## Physics objects and the Integrator

Both clients carry the same per-object integration step (`updatePhysics`,
typed client lines 792-822, plain-script client lines 231-265; the two
bodies are identical apart from debug logging).  An object is a record with
an id, position `x`/`y`, `velocity`, `mass`, a `type` tag and optional
shape fields.  The JS guard `obj.type === 'circle' && obj.radius` tests
truthiness of `radius`: absent (`undefined`) and `0` are falsy. -/

/-- Shape tag of a physics object (`type: 'circle' | 'rectangle'`). -/
inductive Shape where
  | circle
  | rectangle
  deriving DecidableEq

/-- A simulated body, mirroring the `PhysicsObject` interface of the typed
client (lines 604-614). -/
structure PhysicsObject where
  id : String
  x : ℚ
  y : ℚ
  velocity : Vec2
  mass : ℚ
  type : Shape
  radius : Option ℚ := none
  width : Option ℚ := none
  height : Option ℚ := none
  deriving DecidableEq

/-- JS truthiness of the optional `radius` field: `undefined` and `0` are
falsy, every other number is truthy. -/
def radiusTruthy : Option ℚ → Bool
  | none => false
  | some r => decide (r ≠ 0)

/-- The object's vertical velocity after the gravity step
(`obj.velocity.y += this.gravity.y * deltaTime`). -/
def preVelY (g : Vec2) (dt : ℚ) (obj : PhysicsObject) : ℚ :=
  obj.velocity.y + g.y * dt

/-- The object's horizontal position after the move step
(`obj.x += obj.velocity.x * deltaTime * 60`). -/
def preX (dt : ℚ) (obj : PhysicsObject) : ℚ :=
  obj.x + obj.velocity.x * dt * 60

/-- The object's vertical position after the move step
(`obj.y += obj.velocity.y * deltaTime * 60`, using the post-gravity
velocity). -/
def preY (g : Vec2) (dt : ℚ) (obj : PhysicsObject) : ℚ :=
  obj.y + preVelY g dt obj * dt * 60

/-- The two sequential horizontal boundary clamps of `updatePhysics`, acting
on a (position, velocity) pair.  The left check runs first and its
reposition is visible to the right check, exactly as the two JS `if`
statements mutate `obj.x` in order. -/
def clampX (b : Bounds) (r : ℚ) (p : ℚ × ℚ) : ℚ × ℚ :=
  let s1 := if p.1 - r < 0 then (r, -p.2 * (4/5)) else p
  if s1.1 + r > b.width then (b.width - r, -s1.2 * (4/5)) else s1

/-- The two sequential vertical boundary clamps of `updatePhysics`: the
bottom check (`obj.y + obj.radius > worldBounds.height`) runs first, then
the top check (`obj.y - obj.radius < 0`) on the possibly-repositioned
state. -/
def clampY (b : Bounds) (r : ℚ) (p : ℚ × ℚ) : ℚ × ℚ :=
  let t1 := if p.1 + r > b.height then (b.height - r, -p.2 * (4/5)) else p
  if t1.1 - r < 0 then (r, -t1.2 * (4/5)) else t1

/-- Embedding of `updatePhysics` for one object (typed client lines
792-822, identically plain-script client lines 231-265): apply gravity to
`velocity.y`, advance the position by `velocity * deltaTime * 60`, then for
truthy-radius circles run the four boundary clamps in source order.  The
horizontal clamps touch only `x`/`velocity.x` and the vertical clamps only
`y`/`velocity.y`, so the sequential JS mutations factor into `clampX` and
`clampY`. -/
def updatePhysics (g : Vec2) (b : Bounds) (dt : ℚ) (obj : PhysicsObject) :
    PhysicsObject :=
  if obj.type = Shape.circle ∧ radiusTruthy obj.radius = true then
    let r := obj.radius.getD 0
    let px := clampX b r (preX dt obj, obj.velocity.x)
    let py := clampY b r (preY g dt obj, preVelY g dt obj)
    { obj with x := px.1, y := py.1, velocity := ⟨px.2, py.2⟩ }
  else
    { obj with
      x := preX dt obj, y := preY g dt obj,
      velocity := ⟨obj.velocity.x, preVelY g dt obj⟩ }

/-- One of the four boundary planes of the world bounds. -/
inductive Side where
  | left
  | right
  | top
  | bottom
  deriving DecidableEq

/-- The post-move state crosses the given boundary plane, in the sense of
the corresponding `if` condition of `updatePhysics` evaluated on the state
produced by the gravity and move steps (before any clamp has run). -/
@[reducible] def crosses (side : Side) (g : Vec2) (b : Bounds) (dt r : ℚ)
    (obj : PhysicsObject) : Prop :=
  match side with
  | Side.left => preX dt obj - r < 0
  | Side.right => preX dt obj + r > b.width
  | Side.top => preY g dt obj - r < 0
  | Side.bottom => preY g dt obj + r > b.height

/-- The object sits exactly flush against the given boundary: its position
component equals the boundary coordinate offset by the radius. -/
@[reducible] def flushAt (side : Side) (b : Bounds) (r : ℚ)
    (obj : PhysicsObject) : Prop :=
  match side with
  | Side.left => obj.x = r
  | Side.right => obj.x = b.width - r
  | Side.top => obj.y = r
  | Side.bottom => obj.y = b.height - r

/-- The object's velocity component along the boundary's axis points out of
the bounds. -/
@[reducible] def outwardVel (side : Side) (obj : PhysicsObject) : Prop :=
  match side with
  | Side.left => obj.velocity.x < 0
  | Side.right => 0 < obj.velocity.x
  | Side.top => obj.velocity.y < 0
  | Side.bottom => 0 < obj.velocity.y

/-- The velocity component along the boundary's axis still points out of the
bounds after the gravity step (for the horizontal sides gravity changes
nothing, so this coincides with `outwardVel`). -/
@[reducible] def outwardAfterGravity (side : Side) (g : Vec2) (dt : ℚ)
    (obj : PhysicsObject) : Prop :=
  match side with
  | Side.left => obj.velocity.x < 0
  | Side.right => 0 < obj.velocity.x
  | Side.top => preVelY g dt obj < 0
  | Side.bottom => 0 < preVelY g dt obj

/-- Signed velocity component pointing back into the bounds from the given
boundary. -/
@[reducible] def inwardComp (side : Side) (obj : PhysicsObject) : ℚ :=
  match side with
  | Side.left => obj.velocity.x
  | Side.right => -obj.velocity.x
  | Side.top => obj.velocity.y
  | Side.bottom => -obj.velocity.y

/-- Iterate `updatePhysics` over a list of frame deltas (one call per
animation frame, as the render loop does for each object). -/
def advanceSeq (g : Vec2) (b : Bounds) (obj : PhysicsObject) :
    List ℚ → PhysicsObject
  | [] => obj
  | d :: ds => advanceSeq g b (updatePhysics g b d obj) ds

/-- Boolean test that one `updatePhysics` step triggers none of the four
boundary clamps: either the object is not a truthy-radius circle (so the
clamp block is skipped), or the post-move state violates none of the four
`if` conditions. -/
def noCrossB (g : Vec2) (b : Bounds) (dt : ℚ) (obj : PhysicsObject) : Bool :=
  !(decide (obj.type = Shape.circle) && radiusTruthy obj.radius) ||
    (let r := obj.radius.getD 0
     decide (0 ≤ preX dt obj - r) && decide (preX dt obj + r ≤ b.width) &&
       decide (preY g dt obj + r ≤ b.height) && decide (0 ≤ preY g dt obj - r))

/-- Boolean test that a whole run of steps stays clear of every boundary:
each step's `noCrossB` holds at the state that step acts on. -/
def noCrossRunB (g : Vec2) (b : Bounds) : PhysicsObject → List ℚ → Bool
  | _, [] => true
  | obj, d :: ds =>
      noCrossB g b d obj && noCrossRunB g b (updatePhysics g b d obj) ds

/-! ## SyncClient message dispatch and gravity toggle (typed client) -/

/-- JS truthiness of the optional `data.id` string: `undefined` and the
empty string are falsy. -/
def strTruthy : Option String → Bool
  | none => false
  | some s => decide (s ≠ "")

/-- The `data` payload of a client-side `physics_update` message, as read by
`handlePhysicsUpdate` (typed client lines 766-781): an `action` string and
the optional fields the dispatcher looks at. -/
structure UpdateData where
  action : String
  object : Option PhysicsObject := none
  id : Option String := none
  gravity : Option Vec2 := none

/-- Local state of one SyncClient instance: the insertion-ordered object
store (`physicsObjects : Map<string, PhysicsObject>`), the gravity vector
and the world bounds. -/
structure ClientState where
  physicsObjects : List (String × PhysicsObject)
  gravity : Vec2
  worldBounds : Bounds
  deriving DecidableEq

/-- JS `Map.prototype.set`: replace in place if the key is present
(preserving insertion order), otherwise append. -/
def mapSet (k : String) (v : PhysicsObject) :
    List (String × PhysicsObject) → List (String × PhysicsObject)
  | [] => [(k, v)]
  | (k', v') :: rest =>
      if k' = k then (k, v) :: rest else (k', v') :: mapSet k v rest

/-- JS `Map.prototype.delete`: remove the entry with the given key (keys are
unique in a `Map`, so removing the first occurrence suffices). -/
def mapDelete (k : String) :
    List (String × PhysicsObject) → List (String × PhysicsObject)
  | [] => []
  | (k', v') :: rest =>
      if k' = k then rest else (k', v') :: mapDelete k rest

/-- The first demo ball re-seeded by `setupCanvas` (typed client lines
650-658). -/
def ball1 : PhysicsObject :=
  { id := "ball1", x := 100, y := 100, velocity := ⟨2, 0⟩, mass := 1,
    type := Shape.circle, radius := some 20 }

/-- The second demo ball re-seeded by `setupCanvas` (typed client lines
660-668). -/
def ball2 : PhysicsObject :=
  { id := "ball2", x := 200, y := 150, velocity := ⟨-1, 0⟩, mass := 3/2,
    type := Shape.circle, radius := some 25 }

/-- Embedding of the typed client's `handlePhysicsUpdate` (lines 766-781):
dispatch on `data.action`.  `add_object` upserts (guarded by truthiness of
`data.object`), `remove_object` deletes by id (guarded by truthiness of
`data.id`), `update_gravity` replaces the gravity vector (guarded by
truthiness of `data.gravity`), `reset` clears the store and re-seeds the
two demo balls via `setupCanvas`.  Every other action — including
`gravity_changed` — falls through to the display update only and leaves the
state unchanged. -/
def handlePhysicsUpdate (st : ClientState) (data : UpdateData) : ClientState :=
  if data.action = "add_object" ∧ data.object.isSome then
    match data.object with
    | some o => { st with physicsObjects := mapSet o.id o st.physicsObjects }
    | none => st
  else if data.action = "remove_object" ∧ strTruthy data.id = true then
    { st with physicsObjects := mapDelete (data.id.getD "") st.physicsObjects }
  else if data.action = "update_gravity" ∧ data.gravity.isSome then
    { st with gravity := data.gravity.getD st.gravity }
  else if data.action = "reset" then
    { st with physicsObjects := mapSet ball2.id ball2 (mapSet ball1.id ball1 []) }
  else
    st

/-- Embedding of `toggleGravity` (typed client lines 895-898; the
plain-script variant at lines 374-406 computes the same
`oldGravity === 0 ? 9.81 : 0` flip): a binary flip of `gravity.y` between
`0` and `9.81`, leaving `gravity.x` untouched. -/
def toggleGravity (g : Vec2) : Vec2 :=
  if g.y = 0 then { g with y := 981/100 } else { g with y := 0 }

/-! ## SyncClient reconnection state machine (typed client lines 699-747)

`connect` installs `onopen` (sets `isConnected`, resets
`reconnectAttempts` to 0) and `onclose` (calls `attemptReconnect`).
`attemptReconnect` schedules another `connect` after
`1000 * reconnectAttempts` ms only while `reconnectAttempts <
maxReconnectAttempts = 5`, incrementing the counter when it schedules.  We
model the machine's reaction to the outcome of each connection attempt:
`opened` (the attempt succeeded) or `failed` (the socket errored/closed,
triggering `attemptReconnect`).  `connStep` returns the next state together
with a flag saying whether a reconnect was scheduled. -/

/-- Connection status of the SyncClient. -/
inductive ConnStatus where
  | connecting
  | opened
  | closed
  deriving DecidableEq

/-- SyncClient connection state: the status plus the retry counter
(`reconnectAttempts`). -/
structure ConnState where
  status : ConnStatus
  reconnectAttempts : ℕ
  deriving DecidableEq

/-- `maxReconnectAttempts` (typed client line 620). -/
def maxReconnectAttempts : ℕ := 5

/-- Outcome of one connection attempt, as seen by the state machine. -/
inductive ConnEvent where
  | opened
  | failed
  deriving DecidableEq

/-- One transition of the reconnection state machine.  On success the
status becomes `opened` and the counter resets to 0 (`onopen`, lines
703-708).  On failure the socket is closed and `attemptReconnect` (lines
736-747) either schedules a retry — incrementing the counter and moving to
`connecting`, returned flag `true` — or, when the counter has reached
`maxReconnectAttempts`, does nothing and the state stays `closed`. -/
def connStep : ConnState → ConnEvent → ConnState × Bool
  | _, ConnEvent.opened => (⟨ConnStatus.opened, 0⟩, false)
  | s, ConnEvent.failed =>
      if s.reconnectAttempts < maxReconnectAttempts then
        (⟨ConnStatus.connecting, s.reconnectAttempts + 1⟩, true)
      else
        (⟨ConnStatus.closed, s.reconnectAttempts⟩, false)

/-- Run the reconnection machine over a list of attempt outcomes, collecting
the final state and the per-event "reconnect scheduled" flags. -/
def connRun : ConnState → List ConnEvent → ConnState × List Bool
  | s, [] => (s, [])
  | s, e :: es =>
      let p := connStep s e
      let q := connRun p.1 es
      (q.1, p.2 :: q.2)

/-! ## Helper lemmas about the boundary clamps -/

/-- When neither horizontal condition fires, the horizontal clamp is the
identity. -/
theorem clampX_id (b : Bounds) (r : ℚ) (p : ℚ × ℚ)
    (h1 : ¬(p.1 - r < 0)) (h2 : ¬(p.1 + r > b.width)) : clampX b r p = p := by
  simp only [clampX]
  rw [if_neg h1, if_neg h2]

/-- A left-boundary crossing with the ball's diameter fitting in the world
clamps flush left and reflects the velocity once. -/
theorem clampX_left (b : Bounds) (r : ℚ) (p : ℚ × ℚ)
    (h1 : p.1 - r < 0) (hw : 2 * r ≤ b.width) :
    clampX b r p = (r, -p.2 * (4/5)) := by
  have h2 : ¬(((r, -p.2 * (4/5)) : ℚ × ℚ).1 + r > b.width) := by
    dsimp only
    push_neg
    linarith
  simp only [clampX]
  rw [if_pos h1, if_neg h2]

/-- A right-boundary crossing with no left crossing clamps flush right and
reflects the velocity once. -/
theorem clampX_right (b : Bounds) (r : ℚ) (p : ℚ × ℚ)
    (h1 : ¬(p.1 - r < 0)) (h2 : p.1 + r > b.width) :
    clampX b r p = (b.width - r, -p.2 * (4/5)) := by
  simp only [clampX]
  rw [if_neg h1, if_pos h2]

/-- When neither vertical condition fires, the vertical clamp is the
identity. -/
theorem clampY_id (b : Bounds) (r : ℚ) (p : ℚ × ℚ)
    (h1 : ¬(p.1 + r > b.height)) (h2 : ¬(p.1 - r < 0)) : clampY b r p = p := by
  simp only [clampY]
  rw [if_neg h1, if_neg h2]

/-- A bottom-boundary crossing with the ball's diameter fitting in the world
clamps flush against the floor and reflects the velocity once (the
subsequent top check cannot re-fire). -/
theorem clampY_bottom (b : Bounds) (r : ℚ) (p : ℚ × ℚ)
    (h1 : p.1 + r > b.height) (hh : 2 * r ≤ b.height) :
    clampY b r p = (b.height - r, -p.2 * (4/5)) := by
  have h2 : ¬(((b.height - r, -p.2 * (4/5)) : ℚ × ℚ).1 - r < 0) := by
    dsimp only
    push_neg
    linarith
  simp only [clampY]
  rw [if_pos h1, if_neg h2]

/-- A top-boundary crossing with no bottom crossing clamps flush against the
ceiling and reflects the velocity once. -/
theorem clampY_top (b : Bounds) (r : ℚ) (p : ℚ × ℚ)
    (h1 : ¬(p.1 + r > b.height)) (h2 : p.1 - r < 0) :
    clampY b r p = (r, -p.2 * (4/5)) := by
  simp only [clampY]
  rw [if_neg h1, if_pos h2]

/-- Unfolding of `updatePhysics` on a circle with a nonzero radius. -/
theorem updatePhysics_circle (g : Vec2) (b : Bounds) (dt : ℚ)
    (obj : PhysicsObject) (r : ℚ) (hshape : obj.type = Shape.circle)
    (hrad : obj.radius = some r) (hr : r ≠ 0) :
    updatePhysics g b dt obj =
      { obj with
        x := (clampX b r (preX dt obj, obj.velocity.x)).1,
        y := (clampY b r (preY g dt obj, preVelY g dt obj)).1,
        velocity := ⟨(clampX b r (preX dt obj, obj.velocity.x)).2,
                     (clampY b r (preY g dt obj, preVelY g dt obj)).2⟩ } := by
  have ht : radiusTruthy (some r) = true := by
    simp [radiusTruthy, hr]
  simp only [updatePhysics, hrad, Option.getD_some]
  rw [if_pos (show obj.type = Shape.circle ∧ radiusTruthy (some r) = true from
    ⟨hshape, ht⟩)]

/-- Unfolding of `updatePhysics` when the clamp block is skipped (not a
circle, or falsy radius). -/
theorem updatePhysics_skip (g : Vec2) (b : Bounds) (dt : ℚ)
    (obj : PhysicsObject)
    (h : ¬(obj.type = Shape.circle ∧ radiusTruthy obj.radius = true)) :
    updatePhysics g b dt obj =
      { obj with
        x := preX dt obj, y := preY g dt obj,
        velocity := ⟨obj.velocity.x, preVelY g dt obj⟩ } := by
  simp [updatePhysics, if_neg h]

/-- A step that triggers no boundary clamp is the pure kinematic step. -/
theorem updatePhysics_noCross (g : Vec2) (b : Bounds) (dt : ℚ)
    (obj : PhysicsObject) (h : noCrossB g b dt obj = true) :
    updatePhysics g b dt obj =
      { obj with
        x := preX dt obj, y := preY g dt obj,
        velocity := ⟨obj.velocity.x, preVelY g dt obj⟩ } := by
  by_cases hc : obj.type = Shape.circle ∧ radiusTruthy obj.radius = true
  · obtain ⟨r, hrad, hr⟩ : ∃ r, obj.radius = some r ∧ r ≠ 0 := by
      rcases hrd : obj.radius with _ | r
      · exfalso
        have hh := hc.2
        rw [hrd] at hh
        simp [radiusTruthy] at hh
      · refine ⟨r, rfl, ?_⟩
        have hh := hc.2
        rw [hrd] at hh
        simpa [radiusTruthy] using hh
    have hrt : radiusTruthy (some r) = true := by rw [← hrad]; exact hc.2
    have h4 : r ≤ preX dt obj ∧ preX dt obj + r ≤ b.width ∧
        preY g dt obj + r ≤ b.height ∧ r ≤ preY g dt obj := by
      rw [noCrossB, hrad] at h
      simp [hc.1, hrt] at h
      exact ⟨h.1.1.1, h.1.1.2, h.1.2, h.2⟩
    have H1 : ¬(((preX dt obj, obj.velocity.x) : ℚ × ℚ).1 - r < 0) := by
      dsimp only
      push_neg
      linarith [h4.1]
    have H2 : ¬(((preX dt obj, obj.velocity.x) : ℚ × ℚ).1 + r > b.width) := by
      dsimp only
      push_neg
      linarith [h4.2.1]
    have H3 : ¬(((preY g dt obj, preVelY g dt obj) : ℚ × ℚ).1 + r > b.height) := by
      dsimp only
      push_neg
      linarith [h4.2.2.1]
    have H4 : ¬(((preY g dt obj, preVelY g dt obj) : ℚ × ℚ).1 - r < 0) := by
      dsimp only
      push_neg
      linarith [h4.2.2.2]
    rw [updatePhysics_circle g b dt obj r hc.1 hrad hr,
        clampX_id b r _ H1 H2, clampY_id b r _ H3 H4]
  · exact updatePhysics_skip g b dt obj hc

/-- A truthy radius field is `some r` for a nonzero `r`. -/
theorem radiusTruthy_some (o : Option ℚ) (h : radiusTruthy o = true) :
    ∃ r, o = some r ∧ r ≠ 0 := by
  rcases o with _ | r
  · simp [radiusTruthy] at h
  · exact ⟨r, rfl, by simpa [radiusTruthy] using h⟩

/-! ## C3: boundary bounce with restitution 0.8 -/

/-- Ball used in the C3 counterexample: wider than the world, entering the
left boundary. -/
def wideBall : PhysicsObject :=
  { id := "wide", x := 100, y := 300, velocity := ⟨-2, 0⟩, mass := 1,
    type := Shape.circle, radius := some 20 }

/-- World bounds narrower than `wideBall`'s diameter. -/
def narrowBounds : Bounds := ⟨30, 600⟩

/-- C3 counterexample: in a 30-wide world, a radius-20 ball whose step
crosses only the left boundary plane (post-move x = -20, so
x - r = -40 < 0 while x + r = 0 ≤ 30) is clamped left to x = 20, but the
right-boundary check then re-fires on the repositioned state
(20 + 20 > 30), so the final position is 10 — flush against the right
boundary, not the crossed left one — and the velocity component is scaled
by 0.8 twice, giving magnitude 0.64·|v| instead of 0.8·|v|.  This refutes
the claim as stated at this concrete input. -/
theorem bounce_restitution_cex :
    crosses Side.left ⟨0, 0⟩ narrowBounds 1 20 wideBall ∧
    ¬((updatePhysics ⟨0, 0⟩ narrowBounds 1 wideBall).x = 20 ∧
      |(updatePhysics ⟨0, 0⟩ narrowBounds 1 wideBall).velocity.x| =
        (4/5) * |wideBall.velocity.x|) := by
  have hup : updatePhysics ⟨0, 0⟩ narrowBounds 1 wideBall =
      { wideBall with x := 10, y := 300, velocity := ⟨-32/25, 0⟩ } := by
    rw [updatePhysics_circle ⟨0, 0⟩ narrowBounds 1 wideBall 20 rfl rfl
      (by norm_num)]
    have hx : clampX narrowBounds 20 (preX 1 wideBall, wideBall.velocity.x) =
        (10, -32/25) := by
      norm_num [clampX, preX, wideBall, narrowBounds]
    have hy : clampY narrowBounds 20
        (preY ⟨0, 0⟩ 1 wideBall, preVelY ⟨0, 0⟩ 1 wideBall) = (300, 0) := by
      norm_num [clampY, preY, preVelY, wideBall, narrowBounds]
    rw [hx, hy]
  refine ⟨by norm_num [crosses, preX, wideBall], ?_⟩
  rintro ⟨hx, -⟩
  rw [hup] at hx
  norm_num [wideBall] at hx

/-- C3 (amended): for a circle whose diameter fits within the world bounds
(`0 < r`, `2r ≤ width`, `2r ≤ height`), a step that crosses a boundary
plane repositions the object flush against that boundary and sets the
corresponding velocity component to the negation of its pre-collision value
(post-gravity for the vertical axis) times exactly 0.8, so the reflected
component's magnitude is exactly 0.8 times its pre-collision magnitude.
The diameter hypotheses are forced by `bounce_restitution_cex`: without
them, the opposite clamp re-fires on the repositioned state. -/
theorem bounce_restitution (side : Side) (g : Vec2) (b : Bounds) (dt r : ℚ)
    (obj : PhysicsObject) (hshape : obj.type = Shape.circle)
    (hrad : obj.radius = some r) (hr : 0 < r)
    (hw : 2 * r ≤ b.width) (hh : 2 * r ≤ b.height)
    (hcross : crosses side g b dt r obj) :
    match side with
    | Side.left =>
        (updatePhysics g b dt obj).x = r ∧
        (updatePhysics g b dt obj).velocity.x = -obj.velocity.x * (4/5) ∧
        |(updatePhysics g b dt obj).velocity.x| = (4/5) * |obj.velocity.x|
    | Side.right =>
        (updatePhysics g b dt obj).x = b.width - r ∧
        (updatePhysics g b dt obj).velocity.x = -obj.velocity.x * (4/5) ∧
        |(updatePhysics g b dt obj).velocity.x| = (4/5) * |obj.velocity.x|
    | Side.top =>
        (updatePhysics g b dt obj).y = r ∧
        (updatePhysics g b dt obj).velocity.y = -(preVelY g dt obj) * (4/5) ∧
        |(updatePhysics g b dt obj).velocity.y| = (4/5) * |preVelY g dt obj|
    | Side.bottom =>
        (updatePhysics g b dt obj).y = b.height - r ∧
        (updatePhysics g b dt obj).velocity.y = -(preVelY g dt obj) * (4/5) ∧
        |(updatePhysics g b dt obj).velocity.y| = (4/5) * |preVelY g dt obj| := by
  have habs : ∀ v : ℚ, |(-v * (4/5))| = (4/5) * |v| := by
    intro v
    rw [abs_mul, abs_neg, abs_of_pos (by norm_num : (0:ℚ) < 4/5)]
    ring
  have hupd := updatePhysics_circle g b dt obj r hshape hrad hr.ne'
  cases side with
  | left =>
      have hx := clampX_left b r (preX dt obj, obj.velocity.x) hcross hw
      rw [hupd]
      dsimp only
      rw [hx]
      exact ⟨rfl, rfl, habs _⟩
  | right =>
      have hnl : ¬(((preX dt obj, obj.velocity.x) : ℚ × ℚ).1 - r < 0) := by
        dsimp only
        push_neg
        have : b.width < preX dt obj + r := hcross
        linarith
      have hx := clampX_right b r (preX dt obj, obj.velocity.x) hnl hcross
      rw [hupd]
      dsimp only
      rw [hx]
      exact ⟨rfl, rfl, habs _⟩
  | top =>
      have hnb : ¬(((preY g dt obj, preVelY g dt obj) : ℚ × ℚ).1 + r > b.height) := by
        dsimp only
        push_neg
        have : preY g dt obj - r < 0 := hcross
        linarith
      have hy := clampY_top b r (preY g dt obj, preVelY g dt obj) hnb hcross
      rw [hupd]
      dsimp only
      rw [hy]
      exact ⟨rfl, rfl, habs _⟩
  | bottom =>
      have hy := clampY_bottom b r (preY g dt obj, preVelY g dt obj) hcross hh
      rw [hupd]
      dsimp only
      rw [hy]
      exact ⟨rfl, rfl, habs _⟩

/-- Witness for C3's amended theorem: `ball1` dropped for a 4-second frame
crosses the bottom boundary of the default world and bounces with exactly
0.8 restitution on the post-gravity velocity. -/
theorem bounce_restitution_witness :
    ball1.type = Shape.circle ∧ ball1.radius = some 20 ∧ (0 : ℚ) < 20 ∧
    (2 * 20 : ℚ) ≤ (800 : ℚ) ∧ (2 * 20 : ℚ) ≤ (600 : ℚ) ∧
    crosses Side.bottom ⟨0, 981/100⟩ ⟨800, 600⟩ 4 20 ball1 ∧
    ((updatePhysics ⟨0, 981/100⟩ ⟨800, 600⟩ 4 ball1).y = (600 : ℚ) - 20 ∧
      (updatePhysics ⟨0, 981/100⟩ ⟨800, 600⟩ 4 ball1).velocity.y =
        -(preVelY ⟨0, 981/100⟩ 4 ball1) * (4/5) ∧
      |(updatePhysics ⟨0, 981/100⟩ ⟨800, 600⟩ 4 ball1).velocity.y| =
        (4/5) * |preVelY ⟨0, 981/100⟩ 4 ball1|) :=
  ⟨rfl, rfl, by norm_num, by norm_num, by norm_num,
    by norm_num [crosses, preY, preVelY, ball1],
    bounce_restitution Side.bottom ⟨0, 981/100⟩ ⟨800, 600⟩ 4 20 ball1 rfl rfl
      (by norm_num) (by norm_num) (by norm_num)
      (by norm_num [crosses, preY, preVelY, ball1])⟩

/-! ## C5: flush-against-boundary objects with outward velocity -/

/-- Ball used in the C5 counterexample: flush against the top boundary with
outward (upward) velocity that gravity reverses within the step. -/
def topBall : PhysicsObject :=
  { id := "demo", x := 400, y := 20, velocity := ⟨0, -1⟩, mass := 1,
    type := Shape.circle, radius := some 20 }

/-- C5 counterexample: `topBall` sits exactly flush against the top boundary
(y = r = 20) with outward velocity (velocity.y = -1 < 0), yet after one
step with the default gravity 9.81 and delta 1 s its position is not
clamped to the flush value: gravity runs before the positional move, turns
velocity.y into +8.81, the object moves down into the interior (y = 548.6)
and no boundary clamp fires.  This refutes the claim as stated at this
concrete input. -/
theorem boundary_flush_cex :
    flushAt Side.top ⟨800, 600⟩ 20 topBall ∧
    outwardVel Side.top topBall ∧
    (updatePhysics ⟨0, 981/100⟩ ⟨800, 600⟩ 1 topBall).y ≠ 20 := by
  have hnc : noCrossB ⟨0, 981/100⟩ ⟨800, 600⟩ 1 topBall = true := by
    norm_num [noCrossB, preX, preY, preVelY, radiusTruthy, topBall]
  refine ⟨rfl, by norm_num [outwardVel, topBall], ?_⟩
  rw [updatePhysics_noCross _ _ _ _ hnc]
  norm_num [preY, preVelY, topBall]

/-- C5 (amended): a circle placed exactly flush against a boundary with
outward velocity whose component is still outward after the gravity step
(automatic for the two horizontal boundaries, since gravity is only applied
vertically) is, after one step with positive delta and a diameter that fits
the bounds, clamped exactly back to the flush position with its velocity
component along that axis non-negative in the direction back into the
bounds.  The post-gravity-outward hypothesis is forced by
`boundary_flush_cex`; the positive-delta and diameter hypotheses rule out
the degenerate no-move and double-clamp cases. -/
theorem boundary_flush_bounce (side : Side) (g : Vec2) (b : Bounds)
    (dt r : ℚ) (obj : PhysicsObject) (hshape : obj.type = Shape.circle)
    (hrad : obj.radius = some r) (hr : 0 < r)
    (hw : 2 * r ≤ b.width) (hh : 2 * r ≤ b.height) (hdt : 0 < dt)
    (hflush : flushAt side b r obj) (hout : outwardVel side obj)
    (hout2 : outwardAfterGravity side g dt obj) :
    flushAt side b r (updatePhysics g b dt obj) ∧
    0 ≤ inwardComp side (updatePhysics g b dt obj) := by
  have hupd := updatePhysics_circle g b dt obj r hshape hrad hr.ne'
  cases side with
  | left =>
      have hmove : obj.velocity.x * dt * 60 < 0 := by
        have h1 : obj.velocity.x * dt < 0 := mul_neg_of_neg_of_pos hout2 hdt
        exact mul_neg_of_neg_of_pos h1 (by norm_num)
      have hcross : ((preX dt obj, obj.velocity.x) : ℚ × ℚ).1 - r < 0 := by
        dsimp only
        rw [preX, hflush]
        linarith
      have hx := clampX_left b r (preX dt obj, obj.velocity.x) hcross hw
      rw [hupd]
      rw [hx]
      refine ⟨rfl, ?_⟩
      show (0 : ℚ) ≤ -obj.velocity.x * (4/5)
      have hvp : (0 : ℚ) ≤ -obj.velocity.x := by linarith
      exact mul_nonneg hvp (by norm_num)
  | right =>
      have hmove : 0 < obj.velocity.x * dt * 60 := by
        have h1 : 0 < obj.velocity.x * dt := mul_pos hout2 hdt
        exact mul_pos h1 (by norm_num)
      have hnl : ¬(((preX dt obj, obj.velocity.x) : ℚ × ℚ).1 - r < 0) := by
        dsimp only
        push_neg
        rw [preX, hflush]
        linarith
      have hcross : ((preX dt obj, obj.velocity.x) : ℚ × ℚ).1 + r > b.width := by
        dsimp only
        rw [preX, hflush]
        linarith
      have hx := clampX_right b r (preX dt obj, obj.velocity.x) hnl hcross
      rw [hupd]
      rw [hx]
      refine ⟨rfl, ?_⟩
      show (0 : ℚ) ≤ -(-obj.velocity.x * (4/5))
      have hrw : -(-obj.velocity.x * (4/5)) = obj.velocity.x * (4/5) := by ring
      rw [hrw]
      exact mul_nonneg hout2.le (by norm_num)
  | top =>
      have hmove : preVelY g dt obj * dt * 60 < 0 := by
        have h1 : preVelY g dt obj * dt < 0 := mul_neg_of_neg_of_pos hout2 hdt
        exact mul_neg_of_neg_of_pos h1 (by norm_num)
      have hnb : ¬(((preY g dt obj, preVelY g dt obj) : ℚ × ℚ).1 + r > b.height) := by
        dsimp only
        push_neg
        rw [preY, hflush]
        linarith
      have hcross : ((preY g dt obj, preVelY g dt obj) : ℚ × ℚ).1 - r < 0 := by
        dsimp only
        rw [preY, hflush]
        linarith
      have hy := clampY_top b r (preY g dt obj, preVelY g dt obj) hnb hcross
      rw [hupd]
      rw [hy]
      refine ⟨rfl, ?_⟩
      show (0 : ℚ) ≤ -preVelY g dt obj * (4/5)
      have hvp : (0 : ℚ) ≤ -preVelY g dt obj := by linarith
      exact mul_nonneg hvp (by norm_num)
  | bottom =>
      have hmove : 0 < preVelY g dt obj * dt * 60 := by
        have h1 : 0 < preVelY g dt obj * dt := mul_pos hout2 hdt
        exact mul_pos h1 (by norm_num)
      have hcross : ((preY g dt obj, preVelY g dt obj) : ℚ × ℚ).1 + r > b.height := by
        dsimp only
        rw [preY, hflush]
        linarith
      have hy := clampY_bottom b r (preY g dt obj, preVelY g dt obj) hcross hh
      rw [hupd]
      rw [hy]
      refine ⟨rfl, ?_⟩
      show (0 : ℚ) ≤ -(-(preVelY g dt obj) * (4/5))
      have hrw : -(-(preVelY g dt obj) * (4/5)) = preVelY g dt obj * (4/5) := by
        ring
      rw [hrw]
      exact mul_nonneg hout2.le (by norm_num)

/-- Ball used in the C5 witness: flush against the bottom boundary of the
default world, moving downward. -/
def floorBall : PhysicsObject :=
  { id := "floor", x := 400, y := 580, velocity := ⟨0, 5⟩, mass := 1,
    type := Shape.circle, radius := some 20 }

/-- Witness for C5's amended theorem: a ball flush against the floor of the
default world with downward velocity 5 bounces back up and stays flush. -/
theorem boundary_flush_bounce_witness :
    floorBall.type = Shape.circle ∧ floorBall.radius = some 20 ∧
    (0 : ℚ) < 20 ∧ (2 * 20 : ℚ) ≤ (800 : ℚ) ∧ (2 * 20 : ℚ) ≤ (600 : ℚ) ∧
    (0 : ℚ) < 1/60 ∧
    flushAt Side.bottom ⟨800, 600⟩ 20 floorBall ∧
    outwardVel Side.bottom floorBall ∧
    outwardAfterGravity Side.bottom ⟨0, 981/100⟩ (1/60) floorBall ∧
    (flushAt Side.bottom ⟨800, 600⟩ 20
        (updatePhysics ⟨0, 981/100⟩ ⟨800, 600⟩ (1/60) floorBall) ∧
      0 ≤ inwardComp Side.bottom
        (updatePhysics ⟨0, 981/100⟩ ⟨800, 600⟩ (1/60) floorBall)) :=
  ⟨rfl, rfl, by norm_num, by norm_num, by norm_num, by norm_num,
    by norm_num [flushAt, floorBall], by norm_num [outwardVel, floorBall],
    by norm_num [outwardAfterGravity, preVelY, floorBall],
    boundary_flush_bounce Side.bottom ⟨0, 981/100⟩ ⟨800, 600⟩ (1/60) 20
      floorBall rfl rfl (by norm_num) (by norm_num) (by norm_num) (by norm_num)
      (by norm_num [flushAt, floorBall]) (by norm_num [outwardVel, floorBall])
      (by norm_num [outwardAfterGravity, preVelY, floorBall])⟩

/-! ## C10: the integrator's frame conditions -/

/-- C10: one integration step mutates only position and velocity — `id`,
`mass`, `type` and `radius` are untouched; the result is independent of
`worldConfig.gravity.x` (horizontal gravity is never applied); and
`velocity.x` is unchanged whenever the step crosses neither the left nor
the right boundary (in particular always for non-circles). -/
theorem updatePhysics_frame (gx gx' gy : ℚ) (b : Bounds) (dt : ℚ)
    (obj : PhysicsObject) :
    (updatePhysics ⟨gx, gy⟩ b dt obj).id = obj.id ∧
    (updatePhysics ⟨gx, gy⟩ b dt obj).mass = obj.mass ∧
    (updatePhysics ⟨gx, gy⟩ b dt obj).type = obj.type ∧
    (updatePhysics ⟨gx, gy⟩ b dt obj).radius = obj.radius ∧
    updatePhysics ⟨gx', gy⟩ b dt obj = updatePhysics ⟨gx, gy⟩ b dt obj ∧
    ((obj.type = Shape.circle → radiusTruthy obj.radius = true →
        ¬(preX dt obj - obj.radius.getD 0 < 0) ∧
        ¬(preX dt obj + obj.radius.getD 0 > b.width)) →
      (updatePhysics ⟨gx, gy⟩ b dt obj).velocity.x = obj.velocity.x) := by
  by_cases hc : obj.type = Shape.circle ∧ radiusTruthy obj.radius = true
  · obtain ⟨r, hrad, hr⟩ := radiusTruthy_some obj.radius hc.2
    have h1 := updatePhysics_circle ⟨gx, gy⟩ b dt obj r hc.1 hrad hr
    have h2 := updatePhysics_circle ⟨gx', gy⟩ b dt obj r hc.1 hrad hr
    refine ⟨by rw [h1], by rw [h1], by rw [h1], by rw [h1], ?_, ?_⟩
    · rw [h1, h2]
      dsimp only [preVelY, preY]
    · intro hno
      obtain ⟨hl, hrr⟩ := hno hc.1 hc.2
      rw [hrad] at hl hrr
      simp only [Option.getD_some] at hl hrr
      have hX : clampX b r (preX dt obj, obj.velocity.x) =
          (preX dt obj, obj.velocity.x) :=
        clampX_id b r _ hl hrr
      rw [h1]
      show (clampX b r (preX dt obj, obj.velocity.x)).2 = obj.velocity.x
      rw [hX]
  · have h1 := updatePhysics_skip ⟨gx, gy⟩ b dt obj hc
    have h2 := updatePhysics_skip ⟨gx', gy⟩ b dt obj hc
    exact ⟨by rw [h1], by rw [h1], by rw [h1], by rw [h1],
      by rw [h1, h2]; dsimp only [preVelY, preY],
      fun _ => by rw [h1]⟩

/-- Witness for C10 at a concrete ball in the middle of the default world,
showing horizontal gravity 5 and -3 agree and `velocity.x` survives the
step. -/
theorem updatePhysics_frame_witness :
    (updatePhysics ⟨5, 981/100⟩ ⟨800, 600⟩ (1/60) ball1).id = ball1.id ∧
    (updatePhysics ⟨5, 981/100⟩ ⟨800, 600⟩ (1/60) ball1).mass = ball1.mass ∧
    (updatePhysics ⟨5, 981/100⟩ ⟨800, 600⟩ (1/60) ball1).type = ball1.type ∧
    (updatePhysics ⟨5, 981/100⟩ ⟨800, 600⟩ (1/60) ball1).radius = ball1.radius ∧
    updatePhysics ⟨-3, 981/100⟩ ⟨800, 600⟩ (1/60) ball1 =
      updatePhysics ⟨5, 981/100⟩ ⟨800, 600⟩ (1/60) ball1 ∧
    (updatePhysics ⟨5, 981/100⟩ ⟨800, 600⟩ (1/60) ball1).velocity.x =
      ball1.velocity.x := by
  have h := updatePhysics_frame 5 (-3) (981/100) ⟨800, 600⟩ (1/60) ball1
  refine ⟨h.1, h.2.1, h.2.2.1, h.2.2.2.1, h.2.2.2.2.1, h.2.2.2.2.2 ?_⟩
  intro _ _
  constructor
  · norm_num [preX, ball1]
  · norm_num [preX, ball1]

/-! ## C2, C9: RelayServer unicast reply and discard behaviour -/

/-- C2: a `client_ready` message from connection C elicits exactly one
reply, sent to C and to no other connection, of type `physics_init` with
gravity `{x: 0, y: 9.81}` and world bounds `{width: 800, height: 600}`. -/
theorem client_ready_unicast (clients : List Client) (sender : Client)
    (d : α) (now : ℕ) :
    (handleMessage clients sender (InFrame.msg "client_ready" d) now).sends =
      [(sender.id, OutMsg.physicsInit ⟨0, 981/100⟩ ⟨800, 600⟩)] ∧
    ∀ i m, (i, m) ∈
        (handleMessage clients sender (InFrame.msg "client_ready" d) now).sends →
      i = sender.id := by
  constructor
  · simp [handleMessage]
  · intro i m hm
    simp [handleMessage] at hm
    exact hm.1

/-- C9: a frame that is not valid JSON, or whose parsed `type` is neither
`physics_update` nor `client_ready`, is only logged: the handler performs no
sends, leaves the client set unchanged, and closes no connection (it is a
total function, so the failure never propagates to the caller). -/
theorem unknown_or_malformed_no_effect (clients : List Client) (sender : Client)
    (frame : InFrame α) (now : ℕ)
    (h : frame = InFrame.malformed ∨
      ∃ ty d, frame = InFrame.msg ty d ∧
        ty ≠ "physics_update" ∧ ty ≠ "client_ready") :
    (handleMessage clients sender frame now).sends = [] ∧
    (handleMessage clients sender frame now).clients = clients ∧
    (handleMessage clients sender frame now).closedIds = [] := by
  rcases h with h | ⟨ty, d, rfl, h1, h2⟩
  · subst h; exact ⟨rfl, rfl, rfl⟩
  · simp [handleMessage, h1, h2]

/-- Witness for C9: the concrete unknown-type frame `{type: "bogus"}` sent
to a server with one open client produces no sends and no state change. -/
theorem unknown_or_malformed_no_effect_witness :
    ((InFrame.msg "bogus" (0 : ℕ)) = InFrame.malformed ∨
      ∃ ty d, (InFrame.msg "bogus" (0 : ℕ)) = InFrame.msg ty d ∧
        ty ≠ "physics_update" ∧ ty ≠ "client_ready") ∧
    ((handleMessage [⟨1, ReadyState.opened⟩] ⟨1, ReadyState.opened⟩
        (InFrame.msg "bogus" (0 : ℕ)) 7).sends = [] ∧
      (handleMessage [⟨1, ReadyState.opened⟩] ⟨1, ReadyState.opened⟩
        (InFrame.msg "bogus" (0 : ℕ)) 7).clients = [⟨1, ReadyState.opened⟩] ∧
      (handleMessage [⟨1, ReadyState.opened⟩] ⟨1, ReadyState.opened⟩
        (InFrame.msg "bogus" (0 : ℕ)) 7).closedIds = []) :=
  ⟨Or.inr ⟨"bogus", 0, rfl, by decide, by decide⟩,
    unknown_or_malformed_no_effect _ _ _ _
      (Or.inr ⟨"bogus", 0, rfl, by decide, by decide⟩)⟩

/-! ## C4: client-side gravity updates -/

/-- C4 counterexample: a `physics_update` whose `data.action` is
`gravity_changed` with a gravity payload `{x: 0, y: 5}` does NOT replace the
receiving client's gravity — `handlePhysicsUpdate` has no `gravity_changed`
branch, so gravity stays at `{x: 0, y: 9.81}`, refuting the claim at this
input. -/
theorem gravity_changed_ignored_cex :
    (handlePhysicsUpdate ⟨[], ⟨0, 981/100⟩, ⟨800, 600⟩⟩
        { action := "gravity_changed", gravity := some ⟨0, 5⟩ }).gravity =
      ⟨0, 981/100⟩ ∧
    (handlePhysicsUpdate ⟨[], ⟨0, 981/100⟩, ⟨800, 600⟩⟩
        { action := "gravity_changed", gravity := some ⟨0, 5⟩ }).gravity ≠
      ⟨0, 5⟩ := by
  constructor
  · rfl
  · have hv : (handlePhysicsUpdate ⟨[], ⟨0, 981/100⟩, ⟨800, 600⟩⟩
        { action := "gravity_changed", gravity := some ⟨0, 5⟩ }).gravity =
      ⟨0, 981/100⟩ := rfl
    rw [hv]
    intro heq
    have hy : (981/100 : ℚ) = 5 := congrArg Vec2.y heq
    norm_num at hy

/-- C4 (amended): an inbound `physics_update` whose `data.action` is
`update_gravity` with a gravity payload present replaces the client's
gravity with the payload value; a message whose action is `gravity_changed`
leaves the client state (gravity included) entirely unchanged. -/
theorem update_gravity_applies (st : ClientState) (gv : Vec2)
    (data : UpdateData) (h1 : data.action = "update_gravity")
    (h2 : data.gravity = some gv) :
    (handlePhysicsUpdate st data).gravity = gv ∧
    ∀ d2 : UpdateData, d2.action = "gravity_changed" →
      handlePhysicsUpdate st d2 = st := by
  constructor
  · simp [handlePhysicsUpdate, h1, h2]
  · intro d2 hd2
    simp [handlePhysicsUpdate, hd2]

/-- Witness for C4's amended theorem at a concrete state and message. -/
theorem update_gravity_applies_witness :
    ({ action := "update_gravity", gravity := some ⟨0, 5⟩ } :
        UpdateData).action = "update_gravity" ∧
    ({ action := "update_gravity", gravity := some ⟨0, 5⟩ } :
        UpdateData).gravity = some ⟨0, 5⟩ ∧
    ((handlePhysicsUpdate ⟨[], ⟨0, 981/100⟩, ⟨800, 600⟩⟩
        { action := "update_gravity", gravity := some ⟨0, 5⟩ }).gravity =
      (⟨0, 5⟩ : Vec2) ∧
    ∀ d2 : UpdateData, d2.action = "gravity_changed" →
      handlePhysicsUpdate ⟨[], ⟨0, 981/100⟩, ⟨800, 600⟩⟩ d2 =
        ⟨[], ⟨0, 981/100⟩, ⟨800, 600⟩⟩) :=
  ⟨rfl, rfl,
    update_gravity_applies ⟨[], ⟨0, 981/100⟩, ⟨800, 600⟩⟩ ⟨0, 5⟩
      { action := "update_gravity", gravity := some ⟨0, 5⟩ } rfl rfl⟩

/-! ## C1: physics_update broadcast fan-out -/

/-- C1: a `physics_update` received from connection A is sent exactly once
to every connection in the client set whose ready state is OPEN — A itself
included, with no self-exclusion: no socket id appears twice in the send
list, every open client's id appears with the outgoing message, and the
outgoing message is a `physics_update` carrying the server's fresh
timestamp `now` and a `data` field equal to the received one.
Closed/connecting/closing sockets receive nothing, and nothing else is
sent. -/
theorem physics_update_broadcast (clients : List Client)
    (sender : Client) (d : α) (now : ℕ)
    (hnd : (clients.map Client.id).Nodup) :
    ((handleMessage clients sender
        (InFrame.msg "physics_update" d) now).sends.map Prod.fst).Nodup ∧
    (∀ c ∈ clients, c.readyState = ReadyState.opened →
      (c.id, OutMsg.physicsUpdate d now) ∈
        (handleMessage clients sender (InFrame.msg "physics_update" d) now).sends) ∧
    (∀ c ∈ clients, c.readyState ≠ ReadyState.opened → ∀ m : OutMsg α,
      (c.id, m) ∉
        (handleMessage clients sender (InFrame.msg "physics_update" d) now).sends) ∧
    (∀ e ∈ (handleMessage clients sender (InFrame.msg "physics_update" d) now).sends,
      ∃ c ∈ clients, c.readyState = ReadyState.opened ∧
        e = (c.id, OutMsg.physicsUpdate d now)) ∧
    (sender ∈ clients → sender.readyState = ReadyState.opened →
      (sender.id, OutMsg.physicsUpdate d now) ∈
        (handleMessage clients sender (InFrame.msg "physics_update" d) now).sends) := by
  have hsends :
      (handleMessage clients sender (InFrame.msg "physics_update" d) now).sends =
        broadcastToAll clients (OutMsg.physicsUpdate d now) := rfl
  simp only [hsends]
  have hmem : ∀ c ∈ clients, c.readyState = ReadyState.opened →
      (c.id, OutMsg.physicsUpdate d now) ∈
        broadcastToAll clients (OutMsg.physicsUpdate d now) := by
    intro c hc ho
    exact List.mem_map.mpr ⟨c, List.mem_filter.mpr ⟨hc, by simp [ho]⟩, rfl⟩
  have hfilterNodup : ((clients.filter fun c =>
      c.readyState = ReadyState.opened).map Client.id).Nodup :=
    List.Nodup.sublist ((clients.filter_sublist).map Client.id) hnd
  refine ⟨?_, hmem, ?_, ?_, ?_⟩
  · rw [broadcastToAll, List.map_map]
    exact hfilterNodup
  · intro c hc ho m hin
    obtain ⟨c', hc', heq⟩ := List.mem_map.mp hin
    have hc'mem : c' ∈ clients := (List.mem_filter.mp hc').1
    have hc'open : c'.readyState = ReadyState.opened := by
      have hp := (List.mem_filter.mp hc').2
      simpa using hp
    have hid : c'.id = c.id := congrArg Prod.fst heq
    have hcc : c' = c := List.inj_on_of_nodup_map hnd hc'mem hc hid
    rw [hcc] at hc'open
    exact ho hc'open
  · intro e he
    obtain ⟨c', hc', heq⟩ := List.mem_map.mp he
    exact ⟨c', (List.mem_filter.mp hc').1,
      by simpa using (List.mem_filter.mp hc').2, heq.symm⟩
  · intro hs ho
    exact hmem sender hs ho

/-- Witness for C1: three clients with distinct ids, two OPEN (the sender
among them) and one closed. -/
theorem physics_update_broadcast_witness :
    (([⟨1, ReadyState.opened⟩, ⟨2, ReadyState.closed⟩, ⟨3, ReadyState.opened⟩] :
        List Client).map Client.id).Nodup ∧
    (((handleMessage [⟨1, ReadyState.opened⟩, ⟨2, ReadyState.closed⟩,
          ⟨3, ReadyState.opened⟩] ⟨1, ReadyState.opened⟩
          (InFrame.msg "physics_update" (42 : ℕ)) 99).sends.map Prod.fst).Nodup ∧
    (∀ c ∈ ([⟨1, ReadyState.opened⟩, ⟨2, ReadyState.closed⟩,
          ⟨3, ReadyState.opened⟩] : List Client),
        c.readyState = ReadyState.opened →
      (c.id, OutMsg.physicsUpdate (42 : ℕ) 99) ∈
        (handleMessage [⟨1, ReadyState.opened⟩, ⟨2, ReadyState.closed⟩,
          ⟨3, ReadyState.opened⟩] ⟨1, ReadyState.opened⟩
          (InFrame.msg "physics_update" (42 : ℕ)) 99).sends) ∧
    (∀ c ∈ ([⟨1, ReadyState.opened⟩, ⟨2, ReadyState.closed⟩,
          ⟨3, ReadyState.opened⟩] : List Client),
        c.readyState ≠ ReadyState.opened → ∀ m : OutMsg ℕ,
      (c.id, m) ∉
        (handleMessage [⟨1, ReadyState.opened⟩, ⟨2, ReadyState.closed⟩,
          ⟨3, ReadyState.opened⟩] ⟨1, ReadyState.opened⟩
          (InFrame.msg "physics_update" (42 : ℕ)) 99).sends) ∧
    (∀ e ∈ (handleMessage [⟨1, ReadyState.opened⟩, ⟨2, ReadyState.closed⟩,
          ⟨3, ReadyState.opened⟩] ⟨1, ReadyState.opened⟩
          (InFrame.msg "physics_update" (42 : ℕ)) 99).sends,
      ∃ c ∈ ([⟨1, ReadyState.opened⟩, ⟨2, ReadyState.closed⟩,
          ⟨3, ReadyState.opened⟩] : List Client),
        c.readyState = ReadyState.opened ∧
        e = (c.id, OutMsg.physicsUpdate 42 99)) ∧
    ((⟨1, ReadyState.opened⟩ : Client) ∈
        ([⟨1, ReadyState.opened⟩, ⟨2, ReadyState.closed⟩,
          ⟨3, ReadyState.opened⟩] : List Client) →
      (⟨1, ReadyState.opened⟩ : Client).readyState = ReadyState.opened →
      ((⟨1, ReadyState.opened⟩ : Client).id, OutMsg.physicsUpdate 42 99) ∈
        (handleMessage [⟨1, ReadyState.opened⟩, ⟨2, ReadyState.closed⟩,
          ⟨3, ReadyState.opened⟩] ⟨1, ReadyState.opened⟩
          (InFrame.msg "physics_update" (42 : ℕ)) 99).sends)) :=
  ⟨by decide,
    physics_update_broadcast
      [⟨1, ReadyState.opened⟩, ⟨2, ReadyState.closed⟩, ⟨3, ReadyState.opened⟩]
      ⟨1, ReadyState.opened⟩ 42 99 (by decide)⟩

/-! ## C6: free-fall accumulation over a boundary-free run -/

/-- Velocity and position accumulation over a boundary-free run of steps,
for an arbitrary initial velocity: `velocity.x` is constant, `velocity.y`
accumulates `g.y · Σ dᵢ`, `x` accumulates `velocity.x · Σ dᵢ · 60`, and `y`
accumulates the per-step post-gravity velocity times `dᵢ · 60`. -/
theorem advanceSeq_formula (g : Vec2) (b : Bounds) :
    ∀ (ds : List ℚ) (obj : PhysicsObject), noCrossRunB g b obj ds = true →
      (advanceSeq g b obj ds).velocity.x = obj.velocity.x ∧
      (advanceSeq g b obj ds).velocity.y = obj.velocity.y + g.y * ds.sum ∧
      (advanceSeq g b obj ds).x = obj.x + obj.velocity.x * ds.sum * 60 ∧
      (advanceSeq g b obj ds).y = obj.y + ∑ i ∈ Finset.range ds.length,
        (obj.velocity.y + g.y * (ds.take (i + 1)).sum) * ds.getD i 0 * 60 := by
  intro ds
  induction ds with
  | nil =>
      intro obj _
      simp [advanceSeq]
  | cons dd ds ih =>
      intro obj h
      rw [noCrossRunB, Bool.and_eq_true] at h
      obtain ⟨h1, h2⟩ := h
      have hstep := updatePhysics_noCross g b dd obj h1
      have IH := ih (updatePhysics g b dd obj) h2
      rw [hstep] at IH
      rw [advanceSeq, hstep]
      refine ⟨?_, ?_, ?_, ?_⟩
      · rw [IH.1]
      · rw [IH.2.1]
        dsimp only [preVelY]
        rw [List.sum_cons]
        ring
      · rw [IH.2.2.1]
        dsimp only [preX]
        rw [List.sum_cons]
        ring
      · rw [IH.2.2.2]
        dsimp only [preY, preVelY]
        rw [List.length_cons, Finset.sum_range_succ']
        simp only [List.take_succ_cons, List.sum_cons, List.getD_cons_succ,
          List.getD_cons_zero, List.take_zero, List.sum_nil]
        have hsum : ∀ i ∈ Finset.range ds.length,
            (obj.velocity.y + g.y * dd + g.y * (ds.take (i + 1)).sum) *
              ds.getD i 0 * 60 =
            (obj.velocity.y + g.y * (dd + (ds.take (i + 1)).sum)) *
              ds.getD i 0 * 60 := by
          intro i _
          ring
        rw [Finset.sum_congr rfl hsum]
        ring

/-- C6: for an object with zero initial velocity under gravity `g.y > 0`,
after a boundary-free run of positive frame deltas `d₁ … dₙ`, `velocity.y`
equals the fixed-step accumulation `g.y · (d₁ + … + dₙ)` and `position.y`
equals the initial `y` plus `Σᵢ (g.y · (d₁ + … + dᵢ)) · dᵢ · 60` — the
fixed-step accumulation under the `*60` per-frame scaling rule, not a
closed-form continuous integral. -/
theorem gravity_accumulation (g : Vec2) (b : Bounds) (ds : List ℚ)
    (obj : PhysicsObject) (hvx : obj.velocity.x = 0) (hvy : obj.velocity.y = 0)
    (hg : 0 < g.y) (hpos : ∀ dd ∈ ds, 0 < dd)
    (hrun : noCrossRunB g b obj ds = true) :
    (advanceSeq g b obj ds).velocity.y = g.y * ds.sum ∧
    (advanceSeq g b obj ds).y = obj.y + ∑ i ∈ Finset.range ds.length,
      (g.y * (ds.take (i + 1)).sum) * ds.getD i 0 * 60 := by
  have h := advanceSeq_formula g b ds obj hrun
  refine ⟨?_, ?_⟩
  · rw [h.2.1, hvy]
    ring
  · rw [h.2.2.2, hvy]
    have hz : ∀ i ∈ Finset.range ds.length,
        ((0 : ℚ) + g.y * (ds.take (i + 1)).sum) * ds.getD i 0 * 60 =
        (g.y * (ds.take (i + 1)).sum) * ds.getD i 0 * 60 := by
      intro i _
      ring
    rw [Finset.sum_congr rfl hz]

/-- Ball used in the C6 witness: at rest in the middle of the default
world. -/
def fallBall : PhysicsObject :=
  { id := "fall", x := 400, y := 100, velocity := ⟨0, 0⟩, mass := 1,
    type := Shape.circle, radius := some 20 }

/-- Witness for C6 over the two-frame run with deltas 1/100 s and 1/50 s. -/
theorem gravity_accumulation_witness :
    fallBall.velocity.x = 0 ∧ fallBall.velocity.y = 0 ∧
    (0 : ℚ) < (981/100 : ℚ) ∧ (∀ dd ∈ [(1/100 : ℚ), 1/50], 0 < dd) ∧
    noCrossRunB ⟨0, 981/100⟩ ⟨800, 600⟩ fallBall [1/100, 1/50] = true ∧
    ((advanceSeq ⟨0, 981/100⟩ ⟨800, 600⟩ fallBall [1/100, 1/50]).velocity.y =
      (981/100 : ℚ) * ([(1/100 : ℚ), 1/50]).sum ∧
    (advanceSeq ⟨0, 981/100⟩ ⟨800, 600⟩ fallBall [1/100, 1/50]).y =
      fallBall.y + ∑ i ∈ Finset.range ([(1/100 : ℚ), 1/50]).length,
        ((981/100 : ℚ) * (([(1/100 : ℚ), 1/50]).take (i + 1)).sum) *
          ([(1/100 : ℚ), 1/50]).getD i 0 * 60) :=
  ⟨rfl, rfl, by norm_num, by intro dd hd; simp at hd; rcases hd with rfl | rfl <;> norm_num,
    by norm_num [noCrossRunB, noCrossB, updatePhysics, preX, preY, preVelY,
      radiusTruthy, clampX, clampY, fallBall],
    gravity_accumulation ⟨0, 981/100⟩ ⟨800, 600⟩ [1/100, 1/50] fallBall rfl rfl
      (by norm_num)
      (by intro dd hd; simp at hd; rcases hd with rfl | rfl <;> norm_num)
      (by norm_num [noCrossRunB, noCrossB, updatePhysics, preX, preY, preVelY,
        radiusTruthy, clampX, clampY, fallBall])⟩

/-! ## C8: gravity toggle round trip -/

/-- C8: starting from `gravity.y = 9.81`, the first toggle sets it to
exactly `0` and the second restores exactly `9.81` — the toggle is a binary
flip, so the round trip has no drift. -/
theorem toggleGravity_roundtrip (g : Vec2) (h : g.y = 981/100) :
    (toggleGravity g).y = 0 ∧ (toggleGravity (toggleGravity g)).y = 981/100 := by
  have h1 : toggleGravity g = { g with y := 0 } := by
    rw [toggleGravity, if_neg]
    rw [h]
    norm_num
  refine ⟨by rw [h1], ?_⟩
  rw [h1, toggleGravity]
  simp

/-- Witness for C8 at the default gravity vector. -/
theorem toggleGravity_roundtrip_witness :
    (⟨0, 981/100⟩ : Vec2).y = 981/100 ∧
    ((toggleGravity ⟨0, 981/100⟩).y = 0 ∧
      (toggleGravity (toggleGravity ⟨0, 981/100⟩)).y = 981/100) :=
  ⟨rfl, toggleGravity_roundtrip ⟨0, 981/100⟩ rfl⟩

/-! ## C7: the reconnection machine gives up after exhausting its retries -/

/-- Once the retry counter has reached `maxReconnectAttempts`, every further
failure outcome drives the machine to the terminal `closed` state and never
schedules another reconnect. -/
theorem connRun_stuck (n : ℕ) : ∀ s : ConnState, s.reconnectAttempts = 5 →
    connRun s (List.replicate (n + 1) ConnEvent.failed) =
      (⟨ConnStatus.closed, 5⟩, List.replicate (n + 1) false) := by
  induction n with
  | zero =>
      intro s hs
      simp [connRun, connStep, hs, maxReconnectAttempts]
  | succ k ih =>
      intro s hs
      have hstep : connStep s ConnEvent.failed = (⟨ConnStatus.closed, 5⟩, false) := by
        simp [connStep, hs, maxReconnectAttempts]
      rw [List.replicate_succ, connRun, hstep, ih ⟨ConnStatus.closed, 5⟩ rfl]
      simp [List.replicate_succ]

/-- C7: after 5 consecutive failed connection attempts from the initial
state the retry counter has reached `maxReconnectAttempts = 5`; from that
point every subsequent failure leaves the machine permanently in the
`closed` state and no further reconnect is ever scheduled (every scheduling
flag emitted afterwards is `false`). -/
theorem reconnect_gives_up (n : ℕ) (hn : 0 < n) :
    (connRun ⟨ConnStatus.connecting, 0⟩
        (List.replicate 5 ConnEvent.failed)).1.reconnectAttempts =
      maxReconnectAttempts ∧
    (connRun (connRun ⟨ConnStatus.connecting, 0⟩
          (List.replicate 5 ConnEvent.failed)).1
        (List.replicate n ConnEvent.failed)).1 = ⟨ConnStatus.closed, 5⟩ ∧
    ∀ sched ∈ (connRun (connRun ⟨ConnStatus.connecting, 0⟩
          (List.replicate 5 ConnEvent.failed)).1
        (List.replicate n ConnEvent.failed)).2, sched = false := by
  have h5 : (connRun ⟨ConnStatus.connecting, 0⟩
      (List.replicate 5 ConnEvent.failed)).1 = ⟨ConnStatus.connecting, 5⟩ := by
    decide
  obtain ⟨m, rfl⟩ := Nat.exists_eq_succ_of_ne_zero hn.ne'
  rw [h5, connRun_stuck m ⟨ConnStatus.connecting, 5⟩ rfl]
  exact ⟨rfl, rfl, fun sched hs => List.eq_of_mem_replicate hs⟩

/-- Witness for C7 with three post-exhaustion failures. -/
theorem reconnect_gives_up_witness :
    0 < 3 ∧
    ((connRun ⟨ConnStatus.connecting, 0⟩
        (List.replicate 5 ConnEvent.failed)).1.reconnectAttempts =
      maxReconnectAttempts ∧
    (connRun (connRun ⟨ConnStatus.connecting, 0⟩
          (List.replicate 5 ConnEvent.failed)).1
        (List.replicate 3 ConnEvent.failed)).1 = ⟨ConnStatus.closed, 5⟩ ∧
    ∀ sched ∈ (connRun (connRun ⟨ConnStatus.connecting, 0⟩
          (List.replicate 5 ConnEvent.failed)).1
        (List.replicate 3 ConnEvent.failed)).2, sched = false) :=
  ⟨by decide, reconnect_gives_up 3 (by decide)⟩

end PhysicsApp
